import Mathlib

/-!
Shallow embedding of the financial ETL transformation core
(`src/transform.py`: `DataTransformer` and `DataQualityChecker`).

Modelling conventions:
* pandas floats are modelled as `ℚ`; a float `NaN` produced by a
  zero-denominator numpy division is modelled as `none : Option ℚ`, and a
  comparison `NaN > t` is `false`, as in IEEE/numpy semantics.
* A null cell (`NaN`/`NaT`) in a column is `none`.  For the `amount` and
  `transaction_date` columns, `none` also covers a raw value on which
  `pd.to_numeric` / `pd.to_datetime` with `errors="coerce"` fails, since such
  values are coerced to null and dropped exactly like nulls.
* A pandas `Timestamp` is a `PyDateTime`: a linear time coordinate `ts`
  (measured in days, so `pd.Timedelta(days=730)` is the rational `730`)
  together with its calendar components as exposed by the `.dt` accessors.
* Column presence is frame-level in pandas, so a batch carries a `Schema` of
  presence flags; accessing an absent column raises `KeyError`, modelled by
  `Except.error`.  `datetime.now()` is impure, so the pipeline takes the
  current time `now` as an explicit parameter.
* `str(x)` applied to a null cell yields the literal string "nan"
  (`.astype(str)` semantics), modelled by `pyStr`.
* The quality report's `null_counts` dictionary and `timestamp` field and the
  `%.2f` float formatting inside issue strings are not referenced by any
  stated property and are elided from the embedding.
-/

namespace FinEtl

/-- Calendar view of a pandas Timestamp: `ts` is the linear time coordinate in
days (used for ordering and `Timedelta` arithmetic), the remaining fields are
the `.dt.year/month/day/dayofweek/hour` accessors. -/
structure PyDateTime where
  ts : ℚ
  year : ℕ
  month : ℕ
  day : ℕ
  dayofweek : ℕ
  hour : ℕ
  deriving DecidableEq, Repr

/-- One raw input record: the eight raw columns, each cell possibly null. -/
structure RawRow where
  transaction_id : Option String
  customer_id : Option String
  transaction_date : Option PyDateTime
  amount : Option ℚ
  merchant_id : Option String
  category : Option String
  status : Option String
  payment_method : Option String
  deriving DecidableEq, Repr

/-- Which of the eight raw columns are present in the input frame. -/
structure Schema where
  has_transaction_id : Bool
  has_customer_id : Bool
  has_transaction_date : Bool
  has_amount : Bool
  has_merchant_id : Bool
  has_category : Bool
  has_status : Bool
  has_payment_method : Bool
  deriving DecidableEq, Repr

/-- All eight raw columns are present. -/
def Schema.complete (s : Schema) : Bool :=
  s.has_transaction_id && s.has_customer_id && s.has_transaction_date &&
  s.has_amount && s.has_merchant_id && s.has_category && s.has_status &&
  s.has_payment_method

/-- A raw input batch: the frame's schema plus its rows in order. -/
structure Batch where
  schema : Schema
  rows : List RawRow
  deriving DecidableEq, Repr

/-- A record after `_validate_data_types`: dates and amounts coerced, string
columns normalized, all eight columns non-null strings/values. -/
structure CleanRow where
  transaction_id : String
  customer_id : String
  transaction_date : PyDateTime
  amount : ℚ
  merchant_id : String
  category : String
  status : String
  payment_method : String
  deriving DecidableEq, Repr

/-- A record after `_add_derived_fields`: the clean columns plus the derived
ones.  `amount_category` and `risk_level` come from `pd.cut` and can be null
(`none`) when the value falls outside every bin. -/
structure TransRow where
  transaction_id : String
  customer_id : String
  transaction_date : PyDateTime
  amount : ℚ
  merchant_id : String
  category : String
  status : String
  payment_method : String
  transaction_year : ℕ
  transaction_month : ℕ
  transaction_day : ℕ
  transaction_dayofweek : ℕ
  transaction_hour : ℕ
  amount_category : Option String
  risk_score : ℚ
  risk_level : Option String
  processed_at : ℚ
  deriving DecidableEq, Repr

/-- `str(cell)` on a possibly-null string cell: `str(np.nan) = "nan"`. -/
def pyStr (o : Option String) : String := o.getD "nan"

/-- `str.strip()`: drop whitespace from both ends (written at the
character-list level so that it computes in the kernel). -/
def trimStr (s : String) : String :=
  ⟨((s.data.dropWhile Char.isWhitespace).reverse.dropWhile Char.isWhitespace).reverse⟩

/-- `str.upper()` (ASCII uppercasing, written at the character-list level). -/
def upperStr (s : String) : String := ⟨s.data.map Char.toUpper⟩

/-- `str.lower()` (ASCII lowercasing, written at the character-list level). -/
def lowerStr (s : String) : String := ⟨s.data.map Char.toLower⟩

/-- `.astype(str).str.strip().str.upper()` on one cell. -/
def normId (o : Option String) : String := upperStr (trimStr (pyStr o))

/-- `.astype(str).str.strip().str.lower()` on one cell. -/
def normCat (o : Option String) : String := lowerStr (trimStr (pyStr o))

/-- `df.drop_duplicates(subset=["transaction_id"], keep="first")`:
keep a row iff its `transaction_id` cell (nulls compare equal, as in pandas)
has not occurred before; `seen` accumulates the keys already kept. -/
def dedupFirst (seen : List (Option String)) : List RawRow → List RawRow
  | [] => []
  | r :: rs =>
    if r.transaction_id ∈ seen then dedupFirst seen rs
    else r :: dedupFirst (r.transaction_id :: seen) rs

/-- Row-level body of `_remove_duplicates` (step 1). -/
def remove_duplicates_rows (rows : List RawRow) : List RawRow :=
  dedupFirst [] rows

/-- The non-critical fills of `_handle_missing_values`:
`category.fillna("unknown")` and `merchant_id.fillna("MERCH0000")`. -/
def fillDefaults (r : RawRow) : RawRow :=
  { r with
    category := some (r.category.getD "unknown")
    merchant_id := some (r.merchant_id.getD "MERCH0000") }

/-- Row-level body of `_handle_missing_values` (step 2): drop rows with a null
critical field (`transaction_id`, `customer_id`, `amount`, in that order),
then fill the non-critical columns. -/
def handle_missing_rows (rows : List RawRow) : List RawRow :=
  let rows1 := rows.filter (fun r => r.transaction_id.isSome)
  let rows2 := rows1.filter (fun r => r.customer_id.isSome)
  let rows3 := rows2.filter (fun r => r.amount.isSome)
  rows3.map fillDefaults

/-- One row of `_validate_data_types` (step 3): rows whose `transaction_date`
or `amount` is null (or failed coercion) are dropped; the string columns of a
surviving row are normalized. -/
def coerceRow (r : RawRow) : Option CleanRow :=
  match r.transaction_date, r.amount with
  | some d, some a =>
    some
      { transaction_id := normId r.transaction_id
        customer_id := normId r.customer_id
        transaction_date := d
        amount := a
        merchant_id := normId r.merchant_id
        category := normCat r.category
        status := normCat r.status
        payment_method := normCat r.payment_method }
  | _, _ => none

/-- Row-level body of `_validate_data_types` (step 3). -/
def validate_types_rows (rows : List RawRow) : List CleanRow :=
  rows.filterMap coerceRow

/-- The closed status enum of business rule 3. -/
def valid_statuses : List String := ["completed", "pending", "failed"]

/-- `_apply_business_rules` (step 4): five sequential filters.
`now` is `datetime.now()`; `now - 730` is `datetime.now() - Timedelta(days=730)`. -/
def apply_business_rules (now : ℚ) (rows : List CleanRow) : List CleanRow :=
  let r1 := rows.filter (fun r => 0 < r.amount)
  let r2 := r1.filter (fun r => r.amount ≤ 1000000)
  let r3 := r2.filter (fun r => r.status ∈ valid_statuses)
  let r4 := r3.filter (fun r => r.transaction_date.ts ≤ now)
  r4.filter (fun r => now - 730 ≤ r.transaction_date.ts)

/-- `pd.cut(amount, bins=[0, 50, 200, 500, 1000, inf], labels=[...])`:
right-closed bins, values at or below the lowest edge fall in no bin. -/
def amountCategory (a : ℚ) : Option String :=
  if a ≤ 0 then none
  else if a ≤ 50 then some "small"
  else if a ≤ 200 then some "medium"
  else if a ≤ 500 then some "large"
  else if a ≤ 1000 then some "very_large"
  else some "exceptional"

/-- The additive risk score of `_add_derived_fields`: starts at 0.0, then the
five independent `df.loc[...] += k` increments. -/
def riskScore (c : CleanRow) : ℚ :=
  0 +
  (if 5000 < c.amount then 30 else 0) +
  (if 10000 < c.amount then 40 else 0) +
  (if c.status = "failed" then 50 else 0) +
  (if c.transaction_date.dayofweek = 5 ∨ c.transaction_date.dayofweek = 6 then 10 else 0) +
  (if c.transaction_date.hour < 6 then 20 else 0)

/-- `pd.cut(risk_score, bins=[-1, 20, 50, 80, 100], labels=[...])`:
right-closed bins; values at or below -1 or above 100 fall in no bin. -/
def riskLevel (s : ℚ) : Option String :=
  if s ≤ -1 then none
  else if s ≤ 20 then some "low"
  else if s ≤ 50 then some "medium"
  else if s ≤ 80 then some "high"
  else if s ≤ 100 then some "critical"
  else none

/-- One row of `_add_derived_fields` (step 5); `now` stamps `processed_at`. -/
def deriveRow (now : ℚ) (c : CleanRow) : TransRow :=
  { transaction_id := c.transaction_id
    customer_id := c.customer_id
    transaction_date := c.transaction_date
    amount := c.amount
    merchant_id := c.merchant_id
    category := c.category
    status := c.status
    payment_method := c.payment_method
    transaction_year := c.transaction_date.year
    transaction_month := c.transaction_date.month
    transaction_day := c.transaction_date.day
    transaction_dayofweek := c.transaction_date.dayofweek
    transaction_hour := c.transaction_date.hour
    amount_category := amountCategory c.amount
    risk_score := riskScore c
    risk_level := riskLevel (riskScore c)
    processed_at := now }

/-- Row-level body of `_add_derived_fields` (step 5). -/
def add_derived_fields (now : ℚ) (rows : List CleanRow) : List TransRow :=
  rows.map (deriveRow now)

/-- `_remove_duplicates` with the frame-level `KeyError` on a missing
`transaction_id` column (raised by `drop_duplicates(subset=...)`). -/
def remove_duplicates (b : Batch) : Except String Batch :=
  if b.schema.has_transaction_id then
    .ok { schema := b.schema, rows := remove_duplicates_rows b.rows }
  else
    .error "KeyError: transaction_id"

/-- `_handle_missing_values`; accesses the three critical columns and the two
filled columns, raising `KeyError` if any is absent. -/
def handle_missing_values (b : Batch) : Except String Batch :=
  if b.schema.has_transaction_id && b.schema.has_customer_id && b.schema.has_amount &&
      b.schema.has_category && b.schema.has_merchant_id then
    .ok { schema := b.schema, rows := handle_missing_rows b.rows }
  else
    .error "KeyError: missing column"

/-- `_validate_data_types`; accesses all eight raw columns, raising `KeyError`
if any is absent. -/
def validate_data_types (b : Batch) : Except String (List CleanRow) :=
  if b.schema.has_transaction_date && b.schema.has_amount && b.schema.has_transaction_id &&
      b.schema.has_customer_id && b.schema.has_merchant_id && b.schema.has_status &&
      b.schema.has_category && b.schema.has_payment_method then
    .ok (validate_types_rows b.rows)
  else
    .error "KeyError: missing column"

/-- `_final_validation` (step 6).  On the typed output frame every required
column exists and, of the required columns, only `risk_level` can still hold a
null (`transaction_id`..`payment_method` are non-null strings/values after
steps 2-3 — a null `status`/`payment_method` became the string "nan" — and
`risk_score` is always assigned); so the `isnull` sum over the required
columns is positive exactly when some `risk_level` is `none`. -/
def final_validation (rows : List TransRow) : Except String (List TransRow) :=
  if rows.any (fun r => r.risk_level.isNone) then
    .error "Critical fields contain null values"
  else
    .ok rows

/-- The entry stored in `self.quality_report["transactions"]`
(`null_counts` and `timestamp` elided). -/
structure QualityReport where
  initial_records : ℕ
  final_records : ℕ
  records_removed : ℤ
  removal_percentage : ℚ
  deriving DecidableEq, Repr

/-- The report computed at the end of `transform_transactions`. -/
def mkReport (initial_count final_count : ℕ) : QualityReport :=
  { initial_records := initial_count
    final_records := final_count
    records_removed := (initial_count : ℤ) - (final_count : ℤ)
    removal_percentage :=
      if 0 < initial_count then
        ((initial_count : ℚ) - (final_count : ℚ)) / (initial_count : ℚ) * 100
      else 0 }

/-- `DataTransformer.transform_transactions`: the six stages in order; a
raised exception propagates as `Except.error`; on success the cleaned rows
are returned together with the stored quality-report entry. -/
def transform_transactions (now : ℚ) (b : Batch) :
    Except String (List TransRow × QualityReport) :=
  let initial_count := b.rows.length
  match remove_duplicates b with
  | .error e => .error e
  | .ok b1 =>
    match handle_missing_values b1 with
    | .error e => .error e
    | .ok b2 =>
      match validate_data_types b2 with
      | .error e => .error e
      | .ok rows3 =>
        let rows4 := apply_business_rules now rows3
        let rows5 := add_derived_fields now rows4
        match final_validation rows5 with
        | .error e => .error e
        | .ok rows6 => .ok (rows6, mkReport initial_count rows6.length)

/-- The pure row-level composition of stages 1-5 (what the pipeline computes
when no column is absent). -/
def pureRows (now : ℚ) (rows : List RawRow) : List TransRow :=
  add_derived_fields now
    (apply_business_rules now
      (validate_types_rows (handle_missing_rows (remove_duplicates_rows rows))))

/-- The rows of a successful transformation result ([] on error). -/
def okRows (e : Except String (List TransRow × QualityReport)) : List TransRow :=
  match e with
  | .ok p => p.1
  | .error _ => []

/-- `DataTransformer.validate_against_customers`: keep the transactions whose
`customer_id` is in `set(customers["customer_id"].unique())`; also returns
the logged removal count `initial_count - len(result)`. -/
def validate_against_customers (transactions : List TransRow) (customers : List String) :
    List TransRow × ℕ :=
  let initial_count := transactions.length
  let valid_customers := customers.dedup
  let kept := transactions.filter (fun r => r.customer_id ∈ valid_customers)
  (kept, initial_count - kept.length)

/-! ### DataQualityChecker -/

/-- The checker's threshold configuration. -/
structure Thresholds where
  max_null_percentage : ℚ
  min_row_count : ℕ
  max_duplicate_percentage : ℚ
  deriving DecidableEq, Repr

/-- The default thresholds of `DataQualityChecker.__init__`. -/
def defaultThresholds : Thresholds :=
  { max_null_percentage := 5 / 100
    min_row_count := 100
    max_duplicate_percentage := 1 / 100 }

/-- A generic frame as seen by the checker: column names plus rows of
possibly-null cells (cell `j` of a row belongs to column `j`). -/
structure QFrame where
  cols : List String
  rows : List (List (Option String))
  deriving DecidableEq, Repr

/-- `df.isnull().sum().sum()`: total number of null cells. -/
def QFrame.nullCount (df : QFrame) : ℕ :=
  (df.rows.map (fun r => r.countP (fun c => c.isNone))).sum

/-- The cells of one named column (empty if the column is absent). -/
def QFrame.colValues (df : QFrame) (c : String) : List (Option String) :=
  match df.cols.findIdx? (fun x => x = c) with
  | some j => df.rows.map (fun r => r.getD j none)
  | none => []

/-- numpy division of a numpy scalar: denominator 0 gives `NaN` (`none`),
never a `ZeroDivisionError`. -/
def npDiv (a b : ℚ) : Option ℚ :=
  if b = 0 then none else some (a / b)

/-- A float comparison `x > t` where `x` may be `NaN` (`none`): `NaN`
compares false. -/
def nanGt (x : Option ℚ) (t : ℚ) : Bool :=
  match x with
  | some v => decide (t < v)
  | none => false

/-- `series.duplicated().sum()`: the number of entries that repeat an earlier
entry (nulls compare equal to each other, as in pandas). -/
def dupSum (l : List (Option String)) : ℕ :=
  l.length - l.dedup.length

/-- The null percentage of `_check_null_percentage` (`NaN` on an empty frame). -/
def QFrame.nullPct (df : QFrame) : Option ℚ :=
  (npDiv (df.nullCount : ℚ) ((df.rows.length : ℚ) * (df.cols.length : ℚ))).map (· * 100)

/-- The duplicate percentage of `_check_duplicates` (`NaN` on an empty frame). -/
def QFrame.dupPct (df : QFrame) : Option ℚ :=
  (npDiv (dupSum (df.colValues "transaction_id") : ℚ) (df.rows.length : ℚ)).map (· * 100)

/-- The issue string appended by `_check_row_count`. -/
def rowMsg (t : Thresholds) (df : QFrame) (name : String) : String :=
  name ++ ": Row count " ++ toString df.rows.length ++ " below minimum " ++
    toString t.min_row_count

/-- The issue string appended by `_check_null_percentage`
(float formatting elided). -/
def nullMsg (t : Thresholds) (df : QFrame) (name : String) : String :=
  name ++ ": Null percentage " ++ toString (df.nullPct.getD 0) ++
    "% exceeds threshold " ++ toString (t.max_null_percentage * 100) ++ "%"

/-- The issue string appended by `_check_duplicates`
(float formatting elided). -/
def dupMsg (df : QFrame) (name : String) : String :=
  name ++ ": Duplicate percentage " ++ toString (df.dupPct.getD 0) ++
    "% exceeds threshold"

/-- `_check_row_count`: returns the verdict and the updated issue list. -/
def check_row_count (t : Thresholds) (df : QFrame) (name : String)
    (issues : List String) : Bool × List String :=
  if df.rows.length < t.min_row_count then
    (false, issues ++ [rowMsg t df name])
  else
    (true, issues)

/-- `_check_null_percentage`. -/
def check_null_percentage (t : Thresholds) (df : QFrame) (name : String)
    (issues : List String) : Bool × List String :=
  if nanGt df.nullPct (t.max_null_percentage * 100) then
    (false, issues ++ [nullMsg t df name])
  else
    (true, issues)

/-- `_check_duplicates`: only checks when the `transaction_id` column exists. -/
def check_duplicates (t : Thresholds) (df : QFrame) (name : String)
    (issues : List String) : Bool × List String :=
  if "transaction_id" ∈ df.cols then
    if nanGt df.dupPct (t.max_duplicate_percentage * 100) then
      (false, issues ++ [dupMsg df name])
    else
      (true, issues)
  else
    (true, issues)

/-- `_check_data_types`: the placeholder check, always passes. -/
def check_data_types (_t : Thresholds) (_df : QFrame) (_name : String)
    (issues : List String) : Bool × List String :=
  (true, issues)

/-- `DataQualityChecker.run_quality_checks` on a fresh instance: runs the four
checks in order, `all_passed` is cleared by each failure, and the accumulated
`quality_issues` list is threaded through every check. -/
def run_quality_checks (t : Thresholds) (df : QFrame) (dataset_name : String) :
    Bool × List String :=
  let all_passed := true
  let step1 := check_row_count t df dataset_name []
  let all_passed := if step1.1 then all_passed else false
  let step2 := check_null_percentage t df dataset_name step1.2
  let all_passed := if step2.1 then all_passed else false
  let step3 := check_duplicates t df dataset_name step2.2
  let all_passed := if step3.1 then all_passed else false
  let step4 := check_data_types t df dataset_name step3.2
  let all_passed := if step4.1 then all_passed else false
  (all_passed, step4.2)

/-- Pure pass/fail of the row-count check. -/
def rowCountPass (t : Thresholds) (df : QFrame) : Bool :=
  !(decide (df.rows.length < t.min_row_count))

/-- Pure pass/fail of the null-density check. -/
def nullPass (t : Thresholds) (df : QFrame) : Bool :=
  !(nanGt df.nullPct (t.max_null_percentage * 100))

/-- Pure pass/fail of the duplicate-density check (vacuously passed when the
key column is absent). -/
def dupPass (t : Thresholds) (df : QFrame) : Bool :=
  if "transaction_id" ∈ df.cols then
    !(nanGt df.dupPct (t.max_duplicate_percentage * 100))
  else
    true

/-! ### Concrete fixtures used by counterexamples and witnesses -/

/-- A schema with all eight raw columns present. -/
def s8 : Schema := ⟨true, true, true, true, true, true, true, true⟩

/-- A mid-week noon timestamp, one day before the reference time 20000. -/
def d1 : PyDateTime := ⟨19999, 2024, 5, 15, 2, 12⟩

/-- A Sunday 2 a.m. timestamp (dayofweek 6, hour 2). -/
def d2 : PyDateTime := ⟨19999, 2024, 5, 19, 6, 2⟩

/-- A clean raw record that survives every stage with risk score 0. -/
def goodRow : RawRow :=
  { transaction_id := some "T1"
    customer_id := some "C1"
    transaction_date := some d1
    amount := some 20
    merchant_id := some "M1"
    category := some "food"
    status := some "completed"
    payment_method := some "card" }

/-- The one-record batch holding `goodRow`. -/
def goodBatch : Batch := ⟨s8, [goodRow]⟩

/-- The output record produced from `goodRow` at reference time 20000. -/
def goodOut : TransRow :=
  { transaction_id := "T1"
    customer_id := "C1"
    transaction_date := d1
    amount := 20
    merchant_id := "M1"
    category := "food"
    status := "completed"
    payment_method := "card"
    transaction_year := 2024
    transaction_month := 5
    transaction_day := 15
    transaction_dayofweek := 2
    transaction_hour := 12
    amount_category := some "small"
    risk_score := 0
    risk_level := some "low"
    processed_at := 20000 }

/-- `goodRow` in its cleaned form. -/
def goodClean : CleanRow :=
  { transaction_id := "T1"
    customer_id := "C1"
    transaction_date := d1
    amount := 20
    merchant_id := "M1"
    category := "food"
    status := "completed"
    payment_method := "card" }

/-- The spec's risk scenario as a raw record: amount 12000, status failed,
Sunday (dayofweek 6), hour 2. -/
def riskyRow : RawRow :=
  { goodRow with
    transaction_id := some "T9"
    amount := some 12000
    status := some "failed"
    transaction_date := some d2 }

/-- The one-record batch holding `riskyRow`. -/
def riskyBatch : Batch := ⟨s8, [riskyRow]⟩

/-- The risk-scenario record in its cleaned form. -/
def riskyClean : CleanRow :=
  { transaction_id := "T9"
    customer_id := "C1"
    transaction_date := d2
    amount := 12000
    merchant_id := "M1"
    category := "food"
    status := "failed"
    payment_method := "card" }

/-- A clean record whose raw transaction id is lower-case "a1". -/
def rowA : RawRow := { goodRow with transaction_id := some "a1", customer_id := some "c1" }

/-- A clean record whose raw transaction id is upper-case "A1". -/
def rowB : RawRow := { goodRow with transaction_id := some "A1", customer_id := some "c2" }

/-- The two-record batch whose raw ids differ only in letter case. -/
def caseBatch : Batch := ⟨s8, [rowA, rowB]⟩

/-- `rowA` in its cleaned form: the id normalizes to "A1". -/
def cleanA : CleanRow := { goodClean with transaction_id := "A1" }

/-- `rowB` in its cleaned form: the id also normalizes to "A1". -/
def cleanB : CleanRow := { goodClean with transaction_id := "A1", customer_id := "C2" }

/-- A clean record with a null `merchant_id`. -/
def merchRow : RawRow := { goodRow with merchant_id := none }

/-- `merchRow` in its cleaned form: the merchant sentinel has been filled. -/
def merchClean : CleanRow := { goodClean with merchant_id := "MERCH0000" }

/-- The one-record batch holding `merchRow`. -/
def merchBatch : Batch := ⟨s8, [merchRow]⟩

/-- An output-shaped record with identifier `i` and customer `c`, used by the
cross-validation and quality-gate scenarios. -/
def mkTx (i : ℕ) (c : String) : TransRow :=
  { goodOut with transaction_id := "TXN" ++ toString i, customer_id := c }

/-- The §8 scenario batch: 10 records, 3 of which reference an unknown
customer. -/
def scen10 : List TransRow :=
  [mkTx 1 "CUST1", mkTx 2 "CUST2", mkTx 3 "CUST3", mkTx 4 "BAD1", mkTx 5 "CUST1",
   mkTx 6 "BAD2", mkTx 7 "CUST2", mkTx 8 "BAD3", mkTx 9 "CUST3", mkTx 10 "CUST1"]

/-- The customer reference set for the scenario. -/
def custSet : List String := ["CUST1", "CUST2", "CUST3"]

/-- A 50-row clean frame (distinct ids, no nulls) for the quality-gate
scenario. -/
def fiftyFrame : QFrame :=
  ⟨["transaction_id"], (List.range 50).map (fun i => [some (toString i)])⟩

/-- The eight raw column names. -/
def cols8 : List String :=
  ["transaction_id", "customer_id", "transaction_date", "amount",
   "merchant_id", "category", "status", "payment_method"]

/-! ### Deduplication lemmas -/

theorem dedupFirst_sublist (l : List RawRow) :
    ∀ seen, (dedupFirst seen l).Sublist l := by
  induction l with
  | nil => intro seen; simp [dedupFirst]
  | cons r rs ih =>
    intro seen
    unfold dedupFirst
    by_cases h : r.transaction_id ∈ seen
    · rw [if_pos h]; exact (ih seen).cons r
    · rw [if_neg h]; exact (ih _).cons₂ r

theorem dedupFirst_key_not_mem (k : Option String) (l : List RawRow) :
    ∀ seen, k ∈ seen → k ∉ (dedupFirst seen l).map (fun r => r.transaction_id) := by
  induction l with
  | nil => intro seen _; simp [dedupFirst]
  | cons r rs ih =>
    intro seen hk
    unfold dedupFirst
    by_cases h : r.transaction_id ∈ seen
    · rw [if_pos h]; exact ih seen hk
    · rw [if_neg h]
      simp only [List.map_cons, List.mem_cons, not_or]
      refine ⟨?_, ?_⟩
      · rintro rfl; exact h hk
      · exact ih (r.transaction_id :: seen) (List.mem_cons_of_mem _ hk)

theorem dedupFirst_keys_nodup (l : List RawRow) :
    ∀ seen, ((dedupFirst seen l).map (fun r => r.transaction_id)).Nodup := by
  induction l with
  | nil => intro seen; simp [dedupFirst]
  | cons r rs ih =>
    intro seen
    unfold dedupFirst
    by_cases h : r.transaction_id ∈ seen
    · rw [if_pos h]; exact ih seen
    · rw [if_neg h]
      simp only [List.map_cons, List.nodup_cons]
      exact ⟨dedupFirst_key_not_mem _ rs _ (List.mem_cons_self _ _), ih _⟩

theorem dedupFirst_eq_self (l : List RawRow) :
    ∀ seen, (∀ r ∈ l, r.transaction_id ∉ seen) →
      (l.map (fun r => r.transaction_id)).Nodup → dedupFirst seen l = l := by
  induction l with
  | nil => intro seen _ _; rfl
  | cons r rs ih =>
    intro seen hseen hnd
    unfold dedupFirst
    rw [if_neg (hseen r (List.mem_cons_self r rs))]
    simp only [List.map_cons, List.nodup_cons] at hnd
    congr 1
    apply ih
    · intro x hx
      simp only [List.mem_cons, not_or]
      refine ⟨?_, hseen x (List.mem_cons_of_mem _ hx)⟩
      intro hxk
      apply hnd.1
      rw [← hxk]
      exact List.mem_map_of_mem _ hx
    · exact hnd.2

/-- C9: the deduplication stage is idempotent: running the keep-first
group-by-transaction_id step twice gives the same batch as running it once. -/
theorem remove_duplicates_rows_idem (rows : List RawRow) :
    remove_duplicates_rows (remove_duplicates_rows rows) = remove_duplicates_rows rows := by
  unfold remove_duplicates_rows
  apply dedupFirst_eq_self
  · intro r _
    simp
  · exact dedupFirst_keys_nodup rows []

/-! ### Characterization of a successful transformation -/

theorem final_validation_ok_iff (rows out : List TransRow) :
    final_validation rows = .ok out ↔ out = rows ∧ ∀ r ∈ rows, r.risk_level ≠ none := by
  unfold final_validation
  by_cases h : rows.any (fun r => r.risk_level.isNone) = true
  · rw [if_pos h]
    simp only [List.any_eq_true, Option.isNone_iff_eq_none] at h
    obtain ⟨r, hr, hnone⟩ := h
    constructor
    · intro hco; exact Except.noConfusion hco
    · rintro ⟨rfl, hall⟩
      exact absurd hnone (hall r hr)
  · rw [if_neg h]
    simp only [List.any_eq_true, Option.isNone_iff_eq_none] at h
    push_neg at h
    constructor
    · intro hok
      injection hok with h1
      exact ⟨h1.symm, h⟩
    · rintro ⟨rfl, _⟩
      rfl

theorem transform_eq_of_complete (now : ℚ) (b : Batch) (h : b.schema.complete = true) :
    transform_transactions now b =
      match final_validation (pureRows now b.rows) with
      | .error e => .error e
      | .ok rows6 => .ok (rows6, mkReport b.rows.length rows6.length) := by
  obtain ⟨s, rows⟩ := b
  simp only [Schema.complete, Bool.and_eq_true] at h
  obtain ⟨⟨⟨⟨⟨⟨⟨h1, h2⟩, h3⟩, h4⟩, h5⟩, h6⟩, h7⟩, h8⟩ := h
  simp [transform_transactions, remove_duplicates, handle_missing_values, validate_data_types,
        h1, h2, h3, h4, h5, h6, h7, h8, pureRows]

theorem remove_duplicates_ok_inv (b : Batch) (b1 : Batch)
    (h : remove_duplicates b = .ok b1) :
    b.schema.has_transaction_id = true ∧
      b1 = { schema := b.schema, rows := remove_duplicates_rows b.rows } := by
  unfold remove_duplicates at h
  by_cases hc : b.schema.has_transaction_id = true
  · rw [if_pos hc] at h
    injection h with h'
    exact ⟨hc, h'.symm⟩
  · rw [if_neg hc] at h
    exact Except.noConfusion h

theorem handle_missing_values_ok_inv (b : Batch) (b2 : Batch)
    (h : handle_missing_values b = .ok b2) :
    (b.schema.has_transaction_id && b.schema.has_customer_id && b.schema.has_amount &&
        b.schema.has_category && b.schema.has_merchant_id) = true ∧
      b2 = { schema := b.schema, rows := handle_missing_rows b.rows } := by
  unfold handle_missing_values at h
  by_cases hc : (b.schema.has_transaction_id && b.schema.has_customer_id &&
      b.schema.has_amount && b.schema.has_category && b.schema.has_merchant_id) = true
  · rw [if_pos hc] at h
    injection h with h'
    exact ⟨hc, h'.symm⟩
  · rw [if_neg hc] at h
    exact Except.noConfusion h

theorem validate_data_types_ok_inv (b : Batch) (rows3 : List CleanRow)
    (h : validate_data_types b = .ok rows3) :
    (b.schema.has_transaction_date && b.schema.has_amount && b.schema.has_transaction_id &&
        b.schema.has_customer_id && b.schema.has_merchant_id && b.schema.has_status &&
        b.schema.has_category && b.schema.has_payment_method) = true ∧
      rows3 = validate_types_rows b.rows := by
  unfold validate_data_types at h
  by_cases hc : (b.schema.has_transaction_date && b.schema.has_amount &&
      b.schema.has_transaction_id && b.schema.has_customer_id && b.schema.has_merchant_id &&
      b.schema.has_status && b.schema.has_category && b.schema.has_payment_method) = true
  · rw [if_pos hc] at h
    injection h with h'
    exact ⟨hc, h'.symm⟩
  · rw [if_neg hc] at h
    exact Except.noConfusion h

theorem complete_of_transform_ok (now : ℚ) (b : Batch)
    (p : List TransRow × QualityReport)
    (h : transform_transactions now b = .ok p) : b.schema.complete = true := by
  unfold transform_transactions at h
  split at h
  · exact Except.noConfusion h
  · rename_i b1 hrd
    split at h
    · exact Except.noConfusion h
    · rename_i b2 hhm
      split at h
      · exact Except.noConfusion h
      · rename_i rows3 hvt
        obtain ⟨hf1, hb1⟩ := remove_duplicates_ok_inv b b1 hrd
        obtain ⟨hf2, hb2⟩ := handle_missing_values_ok_inv b1 b2 hhm
        obtain ⟨hf3, _⟩ := validate_data_types_ok_inv b2 rows3 hvt
        rw [hb1] at hf2 hb2
        rw [hb2] at hf3
        simp only [Bool.and_eq_true] at hf2 hf3
        simp only [Schema.complete, Bool.and_eq_true]
        tauto

theorem transform_ok_iff (now : ℚ) (b : Batch) (out : List TransRow) (rep : QualityReport) :
    transform_transactions now b = .ok (out, rep) ↔
      b.schema.complete = true ∧ out = pureRows now b.rows ∧
        (∀ r ∈ out, r.risk_level ≠ none) ∧ rep = mkReport b.rows.length out.length := by
  constructor
  · intro h
    have hc := complete_of_transform_ok now b _ h
    rw [transform_eq_of_complete now b hc] at h
    rcases hfv : final_validation (pureRows now b.rows) with e | rows6
    · rw [hfv] at h
      exact Except.noConfusion h
    · rw [hfv] at h
      simp only at h
      injection h with h'
      rw [Prod.mk.injEq] at h'
      obtain ⟨hrows, hrep⟩ := h'
      obtain ⟨hfv1, hfv2⟩ := (final_validation_ok_iff _ _).mp hfv
      refine ⟨hc, ?_, ?_, ?_⟩
      · rw [← hrows, hfv1]
      · intro r hr
        rw [← hrows] at hr
        exact hfv2 r (hfv1 ▸ hr)
      · rw [← hrep, ← hrows]
  · intro h
    obtain ⟨hc, hout, hnn, hrep⟩ := h
    rw [transform_eq_of_complete now b hc]
    have hfv : final_validation (pureRows now b.rows) = .ok (pureRows now b.rows) := by
      apply (final_validation_ok_iff _ _).mpr
      refine ⟨rfl, ?_⟩
      intro r hr
      exact hnn r (hout ▸ hr)
    rw [hfv]
    simp only
    rw [hout, hrep, hout]

/-! ### Row-level facts about the enrichment stage -/

theorem mem_pureRows (now : ℚ) (rows : List RawRow) (r : TransRow)
    (h : r ∈ pureRows now rows) :
    ∃ c, c ∈ apply_business_rules now (validate_types_rows (handle_missing_rows
      (remove_duplicates_rows rows))) ∧ r = deriveRow now c := by
  unfold pureRows add_derived_fields at h
  obtain ⟨c, hc, hce⟩ := List.mem_map.mp h
  exact ⟨c, hc, hce.symm⟩

theorem mem_business_rules (now : ℚ) (rows : List CleanRow) (c : CleanRow)
    (h : c ∈ apply_business_rules now rows) :
    c ∈ rows ∧ 0 < c.amount ∧ c.amount ≤ 1000000 ∧ c.status ∈ valid_statuses ∧
      c.transaction_date.ts ≤ now ∧ now - 730 ≤ c.transaction_date.ts := by
  unfold apply_business_rules at h
  simp only [List.mem_filter, decide_eq_true_eq] at h
  tauto

theorem riskScore_nonneg (c : CleanRow) : 0 ≤ riskScore c := by
  unfold riskScore
  have h1 : (0:ℚ) ≤ if 5000 < c.amount then (30:ℚ) else 0 := by split <;> norm_num
  have h2 : (0:ℚ) ≤ if 10000 < c.amount then (40:ℚ) else 0 := by split <;> norm_num
  have h3 : (0:ℚ) ≤ if c.status = "failed" then (50:ℚ) else 0 := by split <;> norm_num
  have h4 : (0:ℚ) ≤
      if c.transaction_date.dayofweek = 5 ∨ c.transaction_date.dayofweek = 6 then (10:ℚ)
      else 0 := by split <;> norm_num
  have h5 : (0:ℚ) ≤ if c.transaction_date.hour < 6 then (20:ℚ) else 0 := by
    split <;> norm_num
  linarith

theorem riskLevel_none_of_gt_100 (s : ℚ) (hs : 100 < s) : riskLevel s = none := by
  unfold riskLevel
  rw [if_neg (by linarith), if_neg (by linarith), if_neg (by linarith),
      if_neg (by linarith), if_neg (by linarith)]

/-! ### Ground evaluations of the pipeline on the concrete fixtures
(rational arithmetic does not reduce in the kernel, so these are proved by
`norm_num` stage by stage rather than by `decide`). -/

theorem stages123_good :
    validate_types_rows (handle_missing_rows (remove_duplicates_rows [goodRow])) =
      [goodClean] := by decide

theorem business_good : apply_business_rules 20000 [goodClean] = [goodClean] := by
  norm_num [apply_business_rules, goodClean, d1, valid_statuses, List.mem_cons,
            List.filter_cons, List.filter_nil, decide_eq_true_eq, Bool.and_eq_true]

theorem riskScore_good : riskScore goodClean = 0 := by
  unfold riskScore
  rw [if_neg (by norm_num [goodClean]), if_neg (by norm_num [goodClean]),
      if_neg (by decide), if_neg (by decide), if_neg (by decide)]
  norm_num

theorem derive_good : add_derived_fields 20000 [goodClean] = [goodOut] := by
  have hlev : riskLevel (riskScore goodClean) = some "low" := by
    rw [riskScore_good]
    norm_num [riskLevel]
  have hcat : amountCategory goodClean.amount = some "small" := by
    norm_num [amountCategory, goodClean]
  simp only [add_derived_fields, List.map_cons, List.map_nil, deriveRow,
             riskScore_good, hlev, hcat]
  rfl

theorem pure_good : pureRows 20000 [goodRow] = [goodOut] := by
  unfold pureRows
  rw [stages123_good, business_good, derive_good]

theorem tf_good :
    transform_transactions 20000 goodBatch = .ok ([goodOut], mkReport 1 1) := by
  rw [transform_eq_of_complete 20000 goodBatch (by decide)]
  rw [show goodBatch.rows = [goodRow] from rfl]
  rw [pure_good]
  simp [final_validation, goodOut]

theorem stages123_risky :
    validate_types_rows (handle_missing_rows (remove_duplicates_rows [riskyRow])) =
      [riskyClean] := by decide

theorem business_risky : apply_business_rules 20000 [riskyClean] = [riskyClean] := by
  norm_num [apply_business_rules, riskyClean, d2, valid_statuses, List.mem_cons,
            List.filter_cons, List.filter_nil, decide_eq_true_eq, Bool.and_eq_true]

theorem riskScore_risky : riskScore riskyClean = 150 := by
  unfold riskScore
  rw [if_pos (by norm_num [riskyClean]), if_pos (by norm_num [riskyClean]),
      if_pos (by decide), if_pos (by decide), if_pos (by decide)]
  norm_num

theorem pure_risky :
    pureRows 20000 [riskyRow] = [deriveRow 20000 riskyClean] := by
  unfold pureRows
  rw [stages123_risky, business_risky]
  rfl

theorem risky_level_none : (deriveRow 20000 riskyClean).risk_level = none := by
  show riskLevel (riskScore riskyClean) = none
  rw [riskScore_risky]
  norm_num [riskLevel]

theorem tf_risky :
    transform_transactions 20000 riskyBatch =
      .error "Critical fields contain null values" := by
  rw [transform_eq_of_complete 20000 riskyBatch (by decide)]
  rw [show riskyBatch.rows = [riskyRow] from rfl]
  rw [pure_risky]
  simp [final_validation, risky_level_none]

theorem stages123_case :
    validate_types_rows (handle_missing_rows (remove_duplicates_rows [rowA, rowB])) =
      [cleanA, cleanB] := by decide

theorem business_case :
    apply_business_rules 20000 [cleanA, cleanB] = [cleanA, cleanB] := by
  norm_num [apply_business_rules, cleanA, cleanB, goodClean, d1, valid_statuses,
            List.mem_cons, List.filter_cons, List.filter_nil, decide_eq_true_eq,
            Bool.and_eq_true]

theorem riskScore_case_a : riskScore cleanA = 0 := by
  unfold riskScore
  rw [if_neg (by norm_num [cleanA, goodClean]), if_neg (by norm_num [cleanA, goodClean]),
      if_neg (by decide), if_neg (by decide), if_neg (by decide)]
  norm_num

theorem riskScore_case_b : riskScore cleanB = 0 := by
  unfold riskScore
  rw [if_neg (by norm_num [cleanB, goodClean]), if_neg (by norm_num [cleanB, goodClean]),
      if_neg (by decide), if_neg (by decide), if_neg (by decide)]
  norm_num

theorem riskLevel_case_a : (deriveRow 20000 cleanA).risk_level = some "low" := by
  show riskLevel (riskScore cleanA) = some "low"
  rw [riskScore_case_a]
  norm_num [riskLevel]

theorem riskLevel_case_b : (deriveRow 20000 cleanB).risk_level = some "low" := by
  show riskLevel (riskScore cleanB) = some "low"
  rw [riskScore_case_b]
  norm_num [riskLevel]

theorem tf_case :
    transform_transactions 20000 caseBatch =
      .ok ([deriveRow 20000 cleanA, deriveRow 20000 cleanB], mkReport 2 2) := by
  rw [transform_eq_of_complete 20000 caseBatch (by decide)]
  rw [show caseBatch.rows = [rowA, rowB] from rfl]
  have hpure : pureRows 20000 [rowA, rowB] =
      [deriveRow 20000 cleanA, deriveRow 20000 cleanB] := by
    unfold pureRows
    rw [stages123_case, business_case]
    rfl
  rw [hpure]
  simp [final_validation, riskLevel_case_a, riskLevel_case_b]

/-! ### Normalized transaction ids through the pipeline -/

theorem coerceRow_transaction_id (r : RawRow) (c : CleanRow) (h : coerceRow r = some c) :
    c.transaction_id = normId r.transaction_id := by
  unfold coerceRow at h
  split at h
  · injection h with h'
    subst h'
    rfl
  · exact Option.noConfusion h

theorem map_key_filterMap_sublist (l : List RawRow) :
    ((l.filterMap coerceRow).map (fun c => c.transaction_id)).Sublist
      (l.map (fun r => normId r.transaction_id)) := by
  induction l with
  | nil => simp
  | cons r rs ih =>
    cases hc : coerceRow r with
    | none =>
      simp only [List.filterMap_cons, hc, List.map_cons]
      exact ih.cons _
    | some c =>
      simp only [List.filterMap_cons, hc, List.map_cons]
      rw [coerceRow_transaction_id r c hc]
      exact ih.cons₂ _

theorem handle_missing_norm_keys_nodup (rows : List RawRow)
    (hinj : ∀ r1 ∈ rows, ∀ r2 ∈ rows,
      r1.transaction_id.isSome = true → r2.transaction_id.isSome = true →
      normId r1.transaction_id = normId r2.transaction_id →
      r1.transaction_id = r2.transaction_id) :
    ((handle_missing_rows (remove_duplicates_rows rows)).map
      (fun r => normId r.transaction_id)).Nodup := by
  set l1 := remove_duplicates_rows rows with hl1
  set lf := ((l1.filter (fun r => r.transaction_id.isSome)).filter
      (fun r => r.customer_id.isSome)).filter (fun r => r.amount.isSome) with hlf
  have hsub : lf.Sublist l1 := by
    rw [hlf]
    exact (List.filter_sublist _).trans ((List.filter_sublist _).trans
      (List.filter_sublist _))
  have hl1rows : l1.Sublist rows := dedupFirst_sublist rows []
  have hnodup_l1 : l1.Nodup := (dedupFirst_keys_nodup rows []).of_map
  have hkeyinj := List.inj_on_of_nodup_map (dedupFirst_keys_nodup rows [])
  have hnodup_lf : lf.Nodup := hnodup_l1.sublist hsub
  have hfmem : ∀ x ∈ lf, x ∈ rows ∧ x.transaction_id.isSome = true := by
    intro x hx
    rw [hlf] at hx
    simp only [List.mem_filter] at hx
    exact ⟨hl1rows.subset hx.1.1.1, hx.1.1.2⟩
  have hnodup_norm : (lf.map (fun r => normId r.transaction_id)).Nodup := by
    refine List.Nodup.map_on ?_ hnodup_lf
    intro x hx y hy hxy
    obtain ⟨hxrows, hxs⟩ := hfmem x hx
    obtain ⟨hyrows, hys⟩ := hfmem y hy
    have hk := hinj x hxrows y hyrows hxs hys hxy
    exact hkeyinj (hsub.subset hx) (hsub.subset hy) hk
  have hmain : ((handle_missing_rows l1).map (fun r => normId r.transaction_id)) =
      lf.map (fun r => normId r.transaction_id) := by
    show ((lf.map fillDefaults).map (fun r => normId r.transaction_id)) = _
    rw [List.map_map]
    rfl
  rw [hmain]
  exact hnodup_norm

/-! ### Claim theorems about the transformation pipeline -/

/-- C1 (amended): the risk buckets top out at 100 — a risk_score above 100
resolves to a null risk_level, not to "critical", and final validation then
rejects the whole batch; hence in every successful output each record's
risk_score is at most 100 and its risk_level is the non-null bucket of its
risk_score. -/
theorem risk_bucketing_capped (now : ℚ) (b : Batch) (out : List TransRow)
    (rep : QualityReport) (hok : transform_transactions now b = .ok (out, rep)) :
    (∀ s : ℚ, 100 < s → riskLevel s = none) ∧
      ∀ r ∈ out, r.risk_score ≤ 100 ∧ r.risk_level = riskLevel r.risk_score ∧
        r.risk_level ≠ none := by
  obtain ⟨hc, hout, hnn, hrep⟩ := (transform_ok_iff now b out rep).mp hok
  refine ⟨riskLevel_none_of_gt_100, ?_⟩
  intro r hr
  obtain ⟨c, hcmem, hre⟩ := mem_pureRows now b.rows r (hout ▸ hr)
  have hlev : r.risk_level = riskLevel r.risk_score := by rw [hre]; rfl
  have hnnr : r.risk_level ≠ none := hnn r hr
  refine ⟨?_, hlev, hnnr⟩
  by_contra hgt
  push_neg at hgt
  exact hnnr (hlev.trans (riskLevel_none_of_gt_100 _ hgt))

/-- C1 witness: the amended theorem instantiated on a concrete successful
batch. -/
theorem risk_bucketing_capped_witness :
    goodOut.risk_score ≤ 100 ∧ goodOut.risk_level = riskLevel goodOut.risk_score ∧
      goodOut.risk_level ≠ none :=
  (risk_bucketing_capped 20000 goodBatch [goodOut] (mkReport 1 1) tf_good).2 goodOut
    (List.mem_singleton.mpr rfl)

/-- C1 counterexample: the spec's own scenario record (amount 12000, status
failed, Sunday 2 a.m.) has risk_score 150; the bucketing maps 150 to a null
risk_level (not "critical"), and its batch then fails final validation. -/
theorem riskLevel_150_not_critical :
    riskScore riskyClean = 150 ∧ riskLevel 150 = none ∧ riskLevel 150 ≠ some "critical" ∧
      transform_transactions 20000 riskyBatch =
        .error "Critical fields contain null values" :=
  ⟨riskScore_risky, by decide, by decide, tf_risky⟩

/-- C3: the pipeline raises an error exactly when a structural/final defect
occurs: a required column absent from the input schema, or a record whose
required `risk_level` field is still null after cleaning (the only required
field that can be null on the typed output).  With a complete schema, stages
1-5 are total (never raise) and only shrink the batch (stage 5 preserves the
row count). -/
theorem transform_error_iff_structural (now : ℚ) (b : Batch) :
    ((∃ e, transform_transactions now b = .error e) ↔
      (¬ b.schema.complete = true ∨ ∃ r ∈ pureRows now b.rows, r.risk_level = none)) ∧
    (∀ s : Schema, s.complete = true → ∀ rows : List RawRow,
      remove_duplicates ⟨s, rows⟩ = .ok ⟨s, remove_duplicates_rows rows⟩ ∧
      handle_missing_values ⟨s, rows⟩ = .ok ⟨s, handle_missing_rows rows⟩ ∧
      validate_data_types ⟨s, rows⟩ = .ok (validate_types_rows rows)) ∧
    (∀ rows : List RawRow, (remove_duplicates_rows rows).length ≤ rows.length ∧
      (handle_missing_rows rows).length ≤ rows.length ∧
      (validate_types_rows rows).length ≤ rows.length) ∧
    (∀ rows : List CleanRow, (apply_business_rules now rows).length ≤ rows.length ∧
      (add_derived_fields now rows).length = rows.length) := by
  refine ⟨?_, ?_, ?_, ?_⟩
  · constructor
    · rintro ⟨e, he⟩
      by_contra hcon
      push_neg at hcon
      obtain ⟨hc, hnn⟩ := hcon
      have hok : transform_transactions now b =
          .ok (pureRows now b.rows, mkReport b.rows.length (pureRows now b.rows).length) :=
        (transform_ok_iff now b _ _).mpr ⟨hc, rfl, hnn, rfl⟩
      rw [hok] at he
      exact Except.noConfusion he
    · intro h
      rcases hres : transform_transactions now b with e | p
      · exact ⟨e, rfl⟩
      · exfalso
        obtain ⟨out, rep⟩ := p
        obtain ⟨hc, hout, hnn, _⟩ := (transform_ok_iff now b out rep).mp hres
        rcases h with hnc | ⟨r, hr, hnone⟩
        · exact hnc hc
        · exact hnn r (hout ▸ hr) hnone
  · intro s hs rows
    simp only [Schema.complete, Bool.and_eq_true] at hs
    obtain ⟨⟨⟨⟨⟨⟨⟨h1, h2⟩, h3⟩, h4⟩, h5⟩, h6⟩, h7⟩, h8⟩ := hs
    refine ⟨?_, ?_, ?_⟩ <;>
      simp [remove_duplicates, handle_missing_values, validate_data_types,
            h1, h2, h3, h4, h5, h6, h7, h8]
  · intro rows
    refine ⟨(dedupFirst_sublist rows []).length_le, ?_, ?_⟩
    · unfold handle_missing_rows
      simp only [List.length_map]
      exact le_trans (List.length_filter_le _ _)
        (le_trans (List.length_filter_le _ _) (List.length_filter_le _ _))
    · unfold validate_types_rows
      exact List.length_filterMap_le _ _
  · intro rows
    constructor
    · unfold apply_business_rules
      exact le_trans (List.length_filter_le _ _)
        (le_trans (List.length_filter_le _ _)
          (le_trans (List.length_filter_le _ _)
            (le_trans (List.length_filter_le _ _) (List.length_filter_le _ _))))
    · unfold add_derived_fields
      simp

/-- C3 witness: the stage wrappers are total on a concrete complete-schema
batch. -/
theorem transform_error_iff_structural_witness :
    s8.complete = true ∧
      validate_data_types ⟨s8, [goodRow]⟩ = .ok (validate_types_rows [goodRow]) :=
  ⟨by decide,
    ((transform_error_iff_structural 20000 goodBatch).2.1 s8 (by decide) [goodRow]).2.2⟩

/-- C4: every record of a successful output has 0 < amount ≤ 1,000,000 and a
non-negative risk_score; indeed the risk score of any record is a sum of
non-negative increments. -/
theorem successful_output_ranges (now : ℚ) (b : Batch) (out : List TransRow)
    (rep : QualityReport) (hok : transform_transactions now b = .ok (out, rep)) :
    (∀ r ∈ out, 0 < r.amount ∧ r.amount ≤ 1000000 ∧ 0 ≤ r.risk_score) ∧
      ∀ c : CleanRow, 0 ≤ riskScore c := by
  obtain ⟨hc, hout, hnn, hrep⟩ := (transform_ok_iff now b out rep).mp hok
  refine ⟨?_, riskScore_nonneg⟩
  intro r hr
  obtain ⟨c, hcmem, hre⟩ := mem_pureRows now b.rows r (hout ▸ hr)
  obtain ⟨_, hpos, hle, _⟩ := mem_business_rules now _ c hcmem
  subst hre
  exact ⟨hpos, hle, riskScore_nonneg c⟩

/-- C4 witness: the range invariant instantiated on a concrete successful
batch. -/
theorem successful_output_ranges_witness :
    0 < goodOut.amount ∧ goodOut.amount ≤ 1000000 ∧ 0 ≤ goodOut.risk_score :=
  (successful_output_ranges 20000 goodBatch [goodOut] (mkReport 1 1) tf_good).1 goodOut
    (List.mem_singleton.mpr rfl)

/-- C6: the stored quality-report entry of a successful call is consistent:
`initial_records - final_records = records_removed` and `removal_percentage`
is `records_removed / initial_records * 100` (0 when `initial_records` is
0). -/
theorem report_consistency (now : ℚ) (b : Batch) (out : List TransRow)
    (rep : QualityReport) (hok : transform_transactions now b = .ok (out, rep)) :
    (rep.initial_records : ℤ) - (rep.final_records : ℤ) = rep.records_removed ∧
    rep.removal_percentage =
      if 0 < rep.initial_records then
        (rep.records_removed : ℚ) / (rep.initial_records : ℚ) * 100
      else 0 := by
  obtain ⟨hc, hout, hnn, hrep⟩ := (transform_ok_iff now b out rep).mp hok
  subst hrep
  constructor
  · rfl
  · simp only [mkReport]
    split_ifs with h
    · push_cast
      ring
    · rfl

/-- C6 witness: report consistency instantiated on a concrete successful
call. -/
theorem report_consistency_witness :
    ((mkReport 1 1).initial_records : ℤ) - ((mkReport 1 1).final_records : ℤ) =
        (mkReport 1 1).records_removed ∧
      (mkReport 1 1).removal_percentage =
        if 0 < (mkReport 1 1).initial_records then
          ((mkReport 1 1).records_removed : ℚ) / ((mkReport 1 1).initial_records : ℚ) * 100
        else 0 :=
  report_consistency 20000 goodBatch [goodOut] (mkReport 1 1) tf_good

/-- C2 (amended): the transaction ids of a successful output are pairwise
distinct provided no two raw records carry distinct non-null ids with the
same normalized (trimmed, upper-cased) form; deduplication keys on the raw
ids before normalization, so raw ids differing only in whitespace or letter
case can produce duplicate ids in the output. -/
theorem output_ids_nodup_of_norm_inj (now : ℚ) (b : Batch)
    (hinj : ∀ r1 ∈ b.rows, ∀ r2 ∈ b.rows,
      r1.transaction_id.isSome = true → r2.transaction_id.isSome = true →
      normId r1.transaction_id = normId r2.transaction_id →
      r1.transaction_id = r2.transaction_id)
    (out : List TransRow) (rep : QualityReport)
    (hok : transform_transactions now b = .ok (out, rep)) :
    (out.map (fun r => r.transaction_id)).Nodup := by
  obtain ⟨hc, hout, hnn, hrep⟩ := (transform_ok_iff now b out rep).mp hok
  subst hout
  unfold pureRows add_derived_fields
  rw [List.map_map]
  have h1 : (List.map ((fun r => r.transaction_id) ∘ deriveRow now)
      (apply_business_rules now (validate_types_rows (handle_missing_rows
        (remove_duplicates_rows b.rows))))) =
      (apply_business_rules now (validate_types_rows (handle_missing_rows
        (remove_duplicates_rows b.rows)))).map (fun c => c.transaction_id) := rfl
  rw [h1]
  have hsub4 : (apply_business_rules now (validate_types_rows (handle_missing_rows
      (remove_duplicates_rows b.rows)))).Sublist (validate_types_rows (handle_missing_rows
      (remove_duplicates_rows b.rows))) := by
    unfold apply_business_rules
    exact (List.filter_sublist _).trans ((List.filter_sublist _).trans
      ((List.filter_sublist _).trans ((List.filter_sublist _).trans
        (List.filter_sublist _))))
  refine List.Nodup.sublist (hsub4.map (fun c => c.transaction_id)) ?_
  refine List.Nodup.sublist (map_key_filterMap_sublist _) ?_
  exact handle_missing_norm_keys_nodup b.rows hinj

/-- C2 witness: the amended uniqueness theorem instantiated on a concrete
successful batch whose normalized ids do not collide. -/
theorem output_ids_nodup_witness :
    (([goodOut] : List TransRow).map (fun r => r.transaction_id)).Nodup :=
  output_ids_nodup_of_norm_inj 20000 goodBatch (by decide) [goodOut] (mkReport 1 1)
    tf_good

/-- C2 counterexample: two raw records whose ids "a1" and "A1" differ only in
letter case both survive dedup (which runs before normalization), and the
successful output contains the transaction id "A1" twice. -/
theorem case_collision_duplicate_ids :
    (okRows (transform_transactions 20000 caseBatch)).map (fun r => r.transaction_id) =
        ["A1", "A1"] ∧ ¬ (["A1", "A1"] : List String).Nodup := by
  refine ⟨?_, by decide⟩
  rw [tf_case]
  rfl

/-- C7 (amended): a raw record with a null `merchant_id` whose critical
fields are non-null is retained by the missing-value stage — not dropped —
and its `merchant_id` is filled with the fixed sentinel "MERCH0000" (which
normalization then leaves unchanged); the sentinel is not the string
"unknown" (that is the `category` sentinel). -/
theorem null_merchant_filled_sentinel (rows : List RawRow) (r : RawRow)
    (hmem : r ∈ rows) (hm : r.merchant_id = none)
    (h1 : r.transaction_id.isSome = true) (h2 : r.customer_id.isSome = true)
    (h3 : r.amount.isSome = true) :
    fillDefaults r ∈ handle_missing_rows rows ∧
      (fillDefaults r).merchant_id = some "MERCH0000" ∧
      normId (fillDefaults r).merchant_id = "MERCH0000" := by
  refine ⟨?_, ?_, ?_⟩
  · unfold handle_missing_rows
    refine List.mem_map_of_mem _ ?_
    exact List.mem_filter.mpr ⟨List.mem_filter.mpr ⟨List.mem_filter.mpr ⟨hmem, h1⟩, h2⟩, h3⟩
  · show some (r.merchant_id.getD "MERCH0000") = some "MERCH0000"
    rw [hm]
    rfl
  · show normId (some (r.merchant_id.getD "MERCH0000")) = "MERCH0000"
    rw [hm]
    decide

/-- C7 witness: the fill theorem instantiated on a concrete record with a
null merchant. -/
theorem null_merchant_filled_witness :
    fillDefaults merchRow ∈ handle_missing_rows [merchRow] ∧
      (fillDefaults merchRow).merchant_id = some "MERCH0000" ∧
      normId (fillDefaults merchRow).merchant_id = "MERCH0000" :=
  null_merchant_filled_sentinel [merchRow] merchRow (List.mem_singleton.mpr rfl)
    (by decide) (by decide) (by decide) (by decide)

theorem stages123_merch :
    validate_types_rows (handle_missing_rows (remove_duplicates_rows [merchRow])) =
      [merchClean] := by decide

theorem business_merch : apply_business_rules 20000 [merchClean] = [merchClean] := by
  norm_num [apply_business_rules, merchClean, goodClean, d1, valid_statuses,
            List.mem_cons, List.filter_cons, List.filter_nil, decide_eq_true_eq,
            Bool.and_eq_true]

theorem riskLevel_merch : (deriveRow 20000 merchClean).risk_level = some "low" := by
  show riskLevel (riskScore merchClean) = some "low"
  have h : riskScore merchClean = 0 := by
    unfold riskScore
    rw [if_neg (by norm_num [merchClean, goodClean]),
        if_neg (by norm_num [merchClean, goodClean]),
        if_neg (by decide), if_neg (by decide), if_neg (by decide)]
    norm_num
  rw [h]
  norm_num [riskLevel]

theorem tf_merch :
    transform_transactions 20000 merchBatch =
      .ok ([deriveRow 20000 merchClean], mkReport 1 1) := by
  rw [transform_eq_of_complete 20000 merchBatch (by decide)]
  rw [show merchBatch.rows = [merchRow] from rfl]
  have hpure : pureRows 20000 [merchRow] = [deriveRow 20000 merchClean] := by
    unfold pureRows
    rw [stages123_merch, business_merch]
    rfl
  rw [hpure]
  simp [final_validation, riskLevel_merch]

/-- C7 counterexample: end to end, the record with a null merchant survives
with merchant_id "MERCH0000", which is not the claimed "unknown" sentinel. -/
theorem merchant_sentinel_not_unknown :
    (okRows (transform_transactions 20000 merchBatch)).map (fun r => r.merchant_id) =
        ["MERCH0000"] ∧ ("MERCH0000" : String) ≠ "unknown" := by
  refine ⟨?_, by decide⟩
  rw [tf_merch]
  rfl

/-- C8: cross-validation keeps exactly the transactions whose customer_id is
a member of the reference set, logging the removed count; on the §8 scenario
(3 of 10 records referencing unknown customers) the output has 7 records and
the logged removal is 3.  (The customer reference data is only read, never
written: the embedding of the operation is a pure function of it.) -/
theorem validate_customers_exact (transactions : List TransRow)
    (customers : List String) :
    ((validate_against_customers transactions customers).1 =
        transactions.filter (fun r => r.customer_id ∈ customers)) ∧
    (∀ r : TransRow, r ∈ (validate_against_customers transactions customers).1 ↔
        (r ∈ transactions ∧ r.customer_id ∈ customers)) ∧
    ((validate_against_customers transactions customers).2 =
        transactions.length - (validate_against_customers transactions customers).1.length) ∧
    (validate_against_customers scen10 custSet).1.length = 7 ∧
    (validate_against_customers scen10 custSet).2 = 3 := by
  refine ⟨?_, ?_, rfl, by decide, by decide⟩
  · unfold validate_against_customers
    apply List.filter_congr
    intro a _
    exact decide_eq_decide.mpr (List.mem_dedup)
  · intro r
    unfold validate_against_customers
    simp [List.mem_filter, List.mem_dedup]

/-! ### Quality gate: characterization and claims -/

theorem run_quality_checks_eq (t : Thresholds) (df : QFrame) (name : String) :
    run_quality_checks t df name =
      (rowCountPass t df && nullPass t df && dupPass t df && true,
       (if rowCountPass t df then [] else [rowMsg t df name]) ++
       ((if nullPass t df then [] else [nullMsg t df name]) ++
        (if dupPass t df then [] else [dupMsg df name]))) := by
  by_cases h1 : df.rows.length < t.min_row_count <;>
    by_cases hm : "transaction_id" ∈ df.cols <;>
      by_cases h2 : nanGt df.nullPct (t.max_null_percentage * 100) = true <;>
        by_cases h3 : nanGt df.dupPct (t.max_duplicate_percentage * 100) = true <;>
          simp [run_quality_checks, check_row_count, check_null_percentage,
                check_duplicates, check_data_types, rowCountPass, nullPass, dupPass,
                h1, hm, h2, h3]

theorem rowCountPass_fifty : rowCountPass defaultThresholds fiftyFrame = false := by
  decide

theorem nullPass_fifty : nullPass defaultThresholds fiftyFrame = true := by
  have h0 : fiftyFrame.nullCount = 0 := by decide
  have h1 : fiftyFrame.rows.length = 50 := by decide
  have h2 : fiftyFrame.cols.length = 1 := by decide
  unfold nullPass QFrame.nullPct npDiv nanGt
  rw [h0, h1, h2]
  norm_num [defaultThresholds]

theorem dupPass_fifty : dupPass defaultThresholds fiftyFrame = true := by
  have hmem : "transaction_id" ∈ fiftyFrame.cols := by decide
  have hdup : dupSum (fiftyFrame.colValues "transaction_id") = 0 := by decide
  have h1 : fiftyFrame.rows.length = 50 := by decide
  unfold dupPass QFrame.dupPct npDiv nanGt
  rw [if_pos hmem, hdup, h1]
  norm_num [defaultThresholds]

theorem rowMsg_fifty :
    rowMsg defaultThresholds fiftyFrame "dataset" =
      "dataset: Row count 50 below minimum 100" := by decide

/-- C5: the gate's verdict is the conjunction of the four independent checks
(the type/shape placeholder always passing); every failing check appends
exactly one issue string, and all checks run even when an earlier one fails,
so the issue list is exactly the concatenation of the failing checks'
messages; in particular the 50-row clean batch against min_row_count = 100
yields passed = false with exactly the one row-count violation string. -/
theorem quality_checks_no_short_circuit (t : Thresholds) (df : QFrame)
    (name : String) :
    ((run_quality_checks t df name).1 =
        (rowCountPass t df && nullPass t df && dupPass t df && true)) ∧
    ((run_quality_checks t df name).2 =
        (if rowCountPass t df then [] else [rowMsg t df name]) ++
        ((if nullPass t df then [] else [nullMsg t df name]) ++
         (if dupPass t df then [] else [dupMsg df name]))) ∧
    ((run_quality_checks t df name).2.length =
        (if rowCountPass t df then 0 else 1) + ((if nullPass t df then 0 else 1) +
          (if dupPass t df then 0 else 1))) ∧
    run_quality_checks defaultThresholds fiftyFrame "dataset" =
      (false, ["dataset: Row count 50 below minimum 100"]) := by
  refine ⟨?_, ?_, ?_, ?_⟩
  · rw [run_quality_checks_eq]
  · rw [run_quality_checks_eq]
  · rw [run_quality_checks_eq]
    by_cases h1 : rowCountPass t df <;> by_cases h2 : nullPass t df <;>
      by_cases h3 : dupPass t df <;> simp [h1, h2, h3]
  · rw [run_quality_checks_eq, rowCountPass_fifty, nullPass_fifty, dupPass_fifty,
        rowMsg_fifty]
    rfl

/-- C10: on a zero-row batch with its schema columns present, the density
checks divide by a zero cell count and row count; numpy yields NaN rather
than raising, NaN compares false against the thresholds, so both checks
pass; the result is passed = false from the row-count check alone, with
exactly one issue string appended. -/
theorem empty_frame_checks_row_count_only (t : Thresholds) (cols : List String)
    (name : String) (h : 0 < t.min_row_count) :
    run_quality_checks t ⟨cols, []⟩ name = (false, [rowMsg t ⟨cols, []⟩ name]) ∧
      nullPass t ⟨cols, []⟩ = true ∧ dupPass t ⟨cols, []⟩ = true := by
  have hnull : nullPass t ⟨cols, []⟩ = true := by
    unfold nullPass QFrame.nullPct npDiv nanGt QFrame.nullCount
    simp
  have hdup : dupPass t ⟨cols, []⟩ = true := by
    unfold dupPass QFrame.dupPct npDiv nanGt
    by_cases hm : "transaction_id" ∈ (⟨cols, []⟩ : QFrame).cols
    · rw [if_pos hm]
      simp
    · rw [if_neg hm]
  have hrow : rowCountPass t ⟨cols, []⟩ = false := by
    unfold rowCountPass
    simp [h]
  refine ⟨?_, hnull, hdup⟩
  rw [run_quality_checks_eq, hnull, hdup, hrow]
  rfl

/-- C10 witness: the default thresholds on an empty eight-column frame. -/
theorem empty_frame_checks_witness :
    0 < defaultThresholds.min_row_count ∧
      run_quality_checks defaultThresholds ⟨cols8, []⟩ "transactions" =
        (false, ["transactions: Row count 0 below minimum 100"]) := by
  refine ⟨by decide, ?_⟩
  rw [(empty_frame_checks_row_count_only defaultThresholds cols8 "transactions"
    (by decide)).1]
  rfl

end FinEtl
